import Mathlib

/-
Verification of the brf-helper financial-risk scoring and hybrid-retrieval core.

The Python sources are embedded shallowly:
* numeric values (Python float/int) are modelled as `Rat` / `Int`;
* fallible Python code (attribute lookup, division) runs in `Except PyErr`;
* `None` is `Option.none`; Python truthiness of a numeric value is `v ≠ 0`.
-/

namespace BRFHelper

/-- Python exceptions that the modelled code can raise. -/
inductive PyErr where
  | attributeError (attr : String)
  | zeroDivisionError
  | valueError (msg : String)
deriving Repr, DecidableEq

/-- Python numeric division: raises ZeroDivisionError when the divisor is zero. -/
def pydiv (a b : Rat) : Except PyErr Rat :=
  if b = 0 then .error .zeroDivisionError else .ok (a / b)

/-- Python `int(x)` on a float value: truncation toward zero. -/
def pyint (x : Rat) : Int :=
  if x < 0 then ⌈x⌉ else ⌊x⌋

/-- The BRFMetrics dataclass of brf_analyzer.py (lines 10-28): all financial
fields optional floats, context fields optional ints / float. -/
structure BRFMetrics where
  brf_name : String
  annual_result : Option Rat := none
  operating_result : Option Rat := none
  interest_costs : Option Rat := none
  cash_flow : Option Rat := none
  liquid_assets : Option Rat := none
  monthly_fee_per_sqm : Option Rat := none
  total_debt : Option Rat := none
  equity : Option Rat := none
  solvency_ratio : Option Rat := none
  maintenance_reserves : Option Rat := none
  num_apartments : Option Int := none
  building_year : Option Int := none
  total_area : Option Rat := none
deriving Repr, DecidableEq

/-- The numeric part of the BRFHealthScore dataclass (brf_analyzer.py lines
31-46); the narrative string fields (explanations, strengths, concerns,
red_flags, recommendations) are presentation text not referenced by any claim
and are omitted from the model. -/
structure BRFHealthScore where
  overall_score : Int
  financial_stability_score : Int
  cost_efficiency_score : Int
  liquidity_score : Int
  debt_management_score : Int
  maintenance_readiness_score : Int
deriving Repr, DecidableEq

/-- BRFAnalyzer._score_financial_stability (brf_analyzer.py lines 218-249). -/
def score_financial_stability (m : BRFMetrics) : Int :=
  let score : Int := 50
  let score : Int :=
    match m.annual_result with
    | none => score
    | some ar =>
      if ar ≥ 0 then score + 20
      else if ar > -100000 then score + 10
      else if ar > -500000 then score - 10
      else score - 30
  let score : Int :=
    match m.operating_result with
    | none => score
    | some orv => if orv > 0 then score + 15 else score - 25
  let score : Int :=
    match m.solvency_ratio with
    | none => score
    | some s => if s > 20 then score + 15 else if s > 10 then score + 5 else score - 20
  max 0 (min 100 score)

/-- BRFAnalyzer._score_cost_efficiency (brf_analyzer.py lines 251-268). -/
def score_cost_efficiency (m : BRFMetrics) : Int :=
  let score : Int := 50
  let score : Int :=
    match m.monthly_fee_per_sqm with
    | none => score
    | some f =>
      if f < 40 then score + 30
      else if f < 50 then score + 15
      else if f < 60 then score + 0
      else if f < 70 then score - 15
      else score - 30
  max 0 (min 100 score)

/-- Cash-flow adjustment of _score_liquidity (brf_analyzer.py lines 275-281). -/
def cashFlowAdj (m : BRFMetrics) : Int :=
  match m.cash_flow with
  | none => 0
  | some cf => if cf > 0 then 25 else if cf > -50000 then 5 else -20

/-- Liquid-assets adjustment of _score_liquidity (brf_analyzer.py lines
283-291).  Python guard: `if metrics.liquid_assets is not None and
metrics.num_apartments:` — `num_apartments` equal to 0 is falsy and skips the
rule, so the division is only reached with a nonzero divisor. -/
def liquidityAssetsAdj (m : BRFMetrics) : Except PyErr Int :=
  match m.liquid_assets, m.num_apartments with
  | some la, some n =>
    if n = 0 then pure 0
    else do
      let per ← pydiv la (n : Rat)
      pure (if per > 50000 then 15 else if per > 20000 then 5 else -15)
  | _, _ => pure 0

/-- BRFAnalyzer._score_liquidity (brf_analyzer.py lines 270-293): start at 50,
apply the two adjustments sequentially, clamp to [0,100] at the end. -/
def score_liquidity (m : BRFMetrics) : Except PyErr Int := do
  let a ← liquidityAssetsAdj m
  pure (max 0 (min 100 (50 + cashFlowAdj m + a)))

/-- Interest-cost adjustment of _score_debt_management (brf_analyzer.py lines
299-309).  Python guard: `if metrics.interest_costs is not None and
metrics.num_apartments:`. -/
def interestAdj (m : BRFMetrics) : Except PyErr Int :=
  match m.interest_costs, m.num_apartments with
  | some ic, some n =>
    if n = 0 then pure 0
    else do
      let per ← pydiv |ic| (n : Rat)
      pure (if per < 5000 then 25 else if per < 15000 then 10
            else if per < 25000 then -5 else -25)
  | _, _ => pure 0

/-- Debt-to-equity adjustment of _score_debt_management (brf_analyzer.py lines
311-321).  Python guard: `if metrics.total_debt and metrics.equity:` — plain
truthiness of both fields, so a zero value skips like None, but a NEGATIVE
equity or debt passes the guard and the rule applies. -/
def debtEquityAdj (m : BRFMetrics) : Except PyErr Int :=
  match m.total_debt, m.equity with
  | some td, some e =>
    if td = 0 ∨ e = 0 then pure 0
    else do
      let r ← pydiv td e
      pure (if r < 1/2 then 15 else if r < 1 then 5 else if r < 2 then -10 else -25)
  | _, _ => pure 0

/-- BRFAnalyzer._score_debt_management (brf_analyzer.py lines 295-323). -/
def score_debt_management (m : BRFMetrics) : Except PyErr Int := do
  let a ← interestAdj m
  let b ← debtEquityAdj m
  pure (max 0 (min 100 (50 + a + b)))

/-- Maintenance-reserves adjustment of _score_maintenance_readiness
(brf_analyzer.py lines 329-339).  Guard: `if metrics.maintenance_reserves is
not None and metrics.num_apartments:`. -/
def reservesAdj (m : BRFMetrics) : Except PyErr Int :=
  match m.maintenance_reserves, m.num_apartments with
  | some mr, some n =>
    if n = 0 then pure 0
    else do
      let per ← pydiv mr (n : Rat)
      pure (if per > 100000 then 20 else if per > 50000 then 10
            else if per > 20000 then 0 else -20)
  | _, _ => pure 0

/-- Building-age adjustment of _score_maintenance_readiness (brf_analyzer.py
lines 341-351).  Guard `if metrics.building_year:` — year 0 is falsy. -/
def buildingAgeAdj (m : BRFMetrics) : Int :=
  match m.building_year with
  | none => 0
  | some y =>
    if y = 0 then 0
    else
      let age : Int := 2024 - y
      if age < 20 then 10 else if age < 40 then 0 else if age < 60 then -10 else -20

/-- BRFAnalyzer._score_maintenance_readiness (brf_analyzer.py lines 325-353). -/
def score_maintenance_readiness (m : BRFMetrics) : Except PyErr Int := do
  let a ← reservesAdj m
  pure (max 0 (min 100 (50 + a + buildingAgeAdj m)))

/-- BRFAnalyzer.calculate_health_score (brf_analyzer.py lines 101-143):
weighted sum of the five sub-scores with weights 0.25 / 0.20 / 0.20 / 0.20 /
0.15 (modelled as exact rationals), truncated to int via `int(...)`. -/
def calculate_health_score (m : BRFMetrics) : Except PyErr BRFHealthScore := do
  let fs := score_financial_stability m
  let ce := score_cost_efficiency m
  let li ← score_liquidity m
  let dm ← score_debt_management m
  let mr ← score_maintenance_readiness m
  let overall := pyint ((fs : Rat) * (25/100) + (ce : Rat) * (20/100) +
    (li : Rat) * (20/100) + (dm : Rat) * (20/100) + (mr : Rat) * (15/100))
  pure ⟨overall, fs, ce, li, dm, mr⟩

/-- RedFlagSeverity enum (red_flag_detector.py lines 11-15). -/
inductive RedFlagSeverity where
  | critical
  | high
  | medium
  | low
deriving Repr, DecidableEq

/-- RedFlagCategory enum (red_flag_detector.py lines 18-25). -/
inductive RedFlagCategory where
  | financial_stability
  | debt_risk
  | liquidity
  | maintenance
  | governance
  | legal
  | operational
deriving Repr, DecidableEq

/-- The RedFlag dataclass (red_flag_detector.py lines 28-37).  The title is
kept verbatim as the flag identifier; the description / impact /
recommendation / evidence fields are presentation strings built by number
formatting and are not referenced by any claim, so they are omitted. -/
structure RedFlag where
  title : String
  category : RedFlagCategory
  severity : RedFlagSeverity
  metric_value : Option Rat := none
deriving Repr, DecidableEq

/-- The RedFlagReport dataclass (red_flag_detector.py lines 40-51); the
summary and immediate_actions presentation strings are omitted. -/
structure RedFlagReport where
  brf_name : String
  total_red_flags : Nat
  critical_count : Nat
  high_count : Nat
  medium_count : Nat
  low_count : Nat
  red_flags : List RedFlag
  overall_risk_level : String
deriving Repr, DecidableEq

/-- Operating-result chain of _check_financial_stability (red_flag_detector.py
lines 130-152), thresholds negative_operating_result_critical = -500000 and
negative_operating_result_high = -100000 inlined from severity_thresholds. -/
def operatingResultFlags (m : BRFMetrics) : List RedFlag :=
  match m.operating_result with
  | none => []
  | some v =>
    if v < -500000 then
      [⟨"Kritiskt negativt rörelseresultat", .financial_stability, .critical, some v⟩]
    else if v < -100000 then
      [⟨"Negativt rörelseresultat", .financial_stability, .high, some v⟩]
    else []

/-- Annual-result check of _check_financial_stability (red_flag_detector.py
lines 154-164). -/
def annualResultFlags (m : BRFMetrics) : List RedFlag :=
  match m.annual_result with
  | none => []
  | some v =>
    if v < -1000000 then
      [⟨"Stort negativt årsresultat", .financial_stability, .high, some v⟩]
    else []

/-- Solvency chain of _check_financial_stability (red_flag_detector.py lines
166-199), thresholds solvency_critical = 5, solvency_high = 10,
solvency_medium = 15. -/
def solvencyFlags (m : BRFMetrics) : List RedFlag :=
  match m.solvency_ratio with
  | none => []
  | some v =>
    if v < 5 then
      [⟨"Kritiskt låg soliditet", .financial_stability, .critical, some v⟩]
    else if v < 10 then
      [⟨"Låg soliditet", .financial_stability, .high, some v⟩]
    else if v < 15 then
      [⟨"Måttlig soliditet", .financial_stability, .medium, some v⟩]
    else []

/-- RedFlagDetector._check_financial_stability (red_flag_detector.py lines
127-201). -/
def check_financial_stability (m : BRFMetrics) : List RedFlag :=
  operatingResultFlags m ++ annualResultFlags m ++ solvencyFlags m

/-- Interest-per-apartment chain of _check_debt_risk (red_flag_detector.py
lines 206-241).  Guard: `if metrics.interest_costs is not None and
metrics.num_apartments:`; thresholds interest_per_apt_critical = 40000,
interest_per_apt_high = 25000, interest_per_apt_medium = 15000. -/
def interestFlags (m : BRFMetrics) : Except PyErr (List RedFlag) :=
  match m.interest_costs, m.num_apartments with
  | some ic, some n =>
    if n = 0 then pure []
    else do
      let per ← pydiv |ic| (n : Rat)
      pure (if per > 40000 then
          [⟨"Mycket hög räntebelastning", .debt_risk, .critical, some per⟩]
        else if per > 25000 then
          [⟨"Hög räntebelastning", .debt_risk, .high, some per⟩]
        else if per > 15000 then
          [⟨"Måttlig räntebelastning", .debt_risk, .medium, some per⟩]
        else [])
  | _, _ => pure []

/-- Debt-to-equity chain of _check_debt_risk (red_flag_detector.py lines
243-267).  Guard: `if metrics.total_debt and metrics.equity and
metrics.equity > 0:` — truthiness of both fields plus a strict positivity
test on equity; thresholds debt_to_equity_critical = 3.0,
debt_to_equity_high = 2.0. -/
def debtEquityFlags (m : BRFMetrics) : Except PyErr (List RedFlag) :=
  match m.total_debt, m.equity with
  | some td, some e =>
    if td = 0 ∨ ¬ (0 < e) then pure []
    else do
      let r ← pydiv td e
      pure (if r > 3 then
          [⟨"Kritisk skuldsättningsgrad", .debt_risk, .critical, some r⟩]
        else if r > 2 then
          [⟨"Hög skuldsättningsgrad", .debt_risk, .high, some r⟩]
        else [])
  | _, _ => pure []

/-- RedFlagDetector._check_debt_risk (red_flag_detector.py lines 203-269). -/
def check_debt_risk (m : BRFMetrics) : Except PyErr (List RedFlag) := do
  pure ((← interestFlags m) ++ (← debtEquityFlags m))

/-- Cash-flow chain of _check_liquidity (red_flag_detector.py lines 274-296),
thresholds negative_cash_flow_critical = -500000 and
negative_cash_flow_high = -200000. -/
def cashFlowFlags (m : BRFMetrics) : List RedFlag :=
  match m.cash_flow with
  | none => []
  | some v =>
    if v < -500000 then
      [⟨"Kritiskt negativt kassaflöde", .liquidity, .critical, some v⟩]
    else if v < -200000 then
      [⟨"Negativt kassaflöde", .liquidity, .high, some v⟩]
    else []

/-- Liquid-assets chain of _check_liquidity (red_flag_detector.py lines
298-322).  Guard: `if metrics.liquid_assets is not None and
metrics.num_apartments:`; thresholds reserves_per_apt_critical = 10000
(severity HIGH in the code) and reserves_per_apt_low = 20000 (MEDIUM). -/
def liquidAssetsFlags (m : BRFMetrics) : Except PyErr (List RedFlag) :=
  match m.liquid_assets, m.num_apartments with
  | some la, some n =>
    if n = 0 then pure []
    else do
      let per ← pydiv la (n : Rat)
      pure (if per < 10000 then
          [⟨"Mycket låga likvida medel", .liquidity, .high, some per⟩]
        else if per < 20000 then
          [⟨"Låga likvida medel", .liquidity, .medium, some per⟩]
        else [])
  | _, _ => pure []

/-- RedFlagDetector._check_liquidity (red_flag_detector.py lines 271-324). -/
def check_liquidity (m : BRFMetrics) : Except PyErr (List RedFlag) := do
  pure (cashFlowFlags m ++ (← liquidAssetsFlags m))

/-- Building-age chain of _check_maintenance (red_flag_detector.py lines
329-353).  Guard `if metrics.building_year:` (year 0 falsy); thresholds
building_age_very_old = 80 (HIGH) and building_age_old = 60 (MEDIUM). -/
def buildingAgeFlags (m : BRFMetrics) : List RedFlag :=
  match m.building_year with
  | none => []
  | some y =>
    if y = 0 then []
    else
      let age : Int := 2024 - y
      if age > 80 then
        [⟨"Mycket gammal fastighet", .maintenance, .high, some (age : Rat)⟩]
      else if age > 60 then
        [⟨"Äldre fastighet med underhållsbehov", .maintenance, .medium, some (age : Rat)⟩]
      else []

/-- Old-building reserves check of _check_maintenance (red_flag_detector.py
lines 355-369): only when building_year is truthy and building age exceeds
building_age_old = 60, and reserves and apartments are available. -/
def oldBuildingReservesFlags (m : BRFMetrics) : Except PyErr (List RedFlag) :=
  match m.building_year with
  | none => pure []
  | some y =>
    if y = 0 then pure []
    else if 2024 - y > 60 then
      match m.maintenance_reserves, m.num_apartments with
      | some mr, some n =>
        if n = 0 then pure []
        else do
          let per ← pydiv mr (n : Rat)
          pure (if per < 50000 then
              [⟨"Otillräckliga underhållsreserver för gammal fastighet",
                .maintenance, .high, some per⟩]
            else [])
      | _, _ => pure []
    else pure []

/-- Independent reserves check of _check_maintenance (red_flag_detector.py
lines 371-384). -/
def reservesFlags (m : BRFMetrics) : Except PyErr (List RedFlag) :=
  match m.maintenance_reserves, m.num_apartments with
  | some mr, some n =>
    if n = 0 then pure []
    else do
      let per ← pydiv mr (n : Rat)
      pure (if per < 20000 then
          [⟨"Låga underhållsreserver", .maintenance, .medium, some per⟩]
        else [])
  | _, _ => pure []

/-- RedFlagDetector._check_maintenance (red_flag_detector.py lines 326-386). -/
def check_maintenance (m : BRFMetrics) : Except PyErr (List RedFlag) := do
  pure (buildingAgeFlags m ++ (← oldBuildingReservesFlags m) ++ (← reservesFlags m))

/-- Python attribute lookup of the name annual_fee_per_sqm on a BRFMetrics
instance, performed by _check_operational_issues (red_flag_detector.py line
391).  The BRFMetrics dataclass (brf_analyzer.py lines 10-28) declares no
field of that name — its fee field is monthly_fee_per_sqm — so on a record
carrying exactly the dataclass fields the lookup raises AttributeError. -/
def getattrAnnualFeePerSqm (_m : BRFMetrics) : Except PyErr (Option Rat) :=
  .error (.attributeError "annual_fee_per_sqm")

/-- RedFlagDetector._check_operational_issues (red_flag_detector.py lines
388-417): reads metrics.annual_fee_per_sqm, divides by 12 and compares the
monthly equivalent with monthly_fee_high = 70 (MEDIUM flag) and
monthly_fee_medium = 60 (LOW flag). -/
def check_operational_issues (m : BRFMetrics) : Except PyErr (List RedFlag) := do
  let afps ← getattrAnnualFeePerSqm m
  match afps with
  | none => pure []
  | some v => do
    let monthly ← pydiv v 12
    pure (if monthly > 70 then
        [⟨"Mycket hög månadsavgift", .operational, .medium, some v⟩]
      else if monthly > 60 then
        [⟨"Hög månadsavgift", .operational, .low, some v⟩]
      else [])

/-- RedFlagDetector._calculate_overall_risk (red_flag_detector.py lines
498-512). -/
def calculate_overall_risk (critical high medium : Nat) : String :=
  if critical ≥ 2 then "KRITISK"
  else if critical ≥ 1 ∨ high ≥ 3 then "HÖG"
  else if high ≥ 1 ∨ medium ≥ 3 then "MÅTTLIG"
  else if medium ≥ 1 then "LÅG"
  else "MINIMAL"

/-- RedFlagDetector._severity_sort_key (red_flag_detector.py lines 570-577). -/
def severity_sort_key : RedFlagSeverity → Nat
  | .critical => 0
  | .high => 1
  | .medium => 2
  | .low => 3

/-- One step of a stable insertion sort by severity_sort_key: the flag is
placed after every already-sorted flag with a strictly smaller key and before
the equal-keyed ones, which all came later in the original list — preserving
the original relative order of equal keys, exactly as Python's stable
`sorted(red_flags, key=...)` does. -/
def insertBySeverity (f : RedFlag) : List RedFlag → List RedFlag
  | [] => [f]
  | g :: gs =>
    if severity_sort_key g.severity < severity_sort_key f.severity then
      g :: insertBySeverity f gs
    else f :: g :: gs

/-- Stable sort of the flag list by severity_sort_key, modelling
`sorted(red_flags, key=lambda x: self._severity_sort_key(x.severity))`
(red_flag_detector.py line 118). -/
def sortFlags : List RedFlag → List RedFlag
  | [] => []
  | f :: fs => insertBySeverity f (sortFlags fs)

/-- RedFlagDetector.detect_red_flags (red_flag_detector.py lines 81-125), for
a detector constructed without a query interface (query_interface = None), so
the governance and legal checks are skipped; with a query interface the run
never reaches them anyway, since _check_operational_issues at line 94 raises
first. -/
def detect_red_flags (m : BRFMetrics) : Except PyErr RedFlagReport := do
  let flags := check_financial_stability m
  let flags := flags ++ (← check_debt_risk m)
  let flags := flags ++ (← check_liquidity m)
  let flags := flags ++ (← check_maintenance m)
  let flags := flags ++ (← check_operational_issues m)
  let critical := (flags.filter (fun f => f.severity == .critical)).length
  let high := (flags.filter (fun f => f.severity == .high)).length
  let medium := (flags.filter (fun f => f.severity == .medium)).length
  let low := (flags.filter (fun f => f.severity == .low)).length
  pure ⟨m.brf_name, flags.length, critical, high, medium, low,
        sortFlags flags, calculate_overall_risk critical high medium⟩

/-- One stored chunk of the vector store: id, text, embedding, metadata. -/
structure StoredDoc where
  id : String
  text : String
  embedding : List Rat
  metadata : List (String × String)
deriving Repr, DecidableEq

/-- One retrieval result in the shape returned by BRFVectorStore.search. -/
structure SearchResult where
  document : String
  metadata : List (String × String)
  distance : Rat
  id : String
deriving Repr, DecidableEq

/-- The state of BRFVectorStore (vector_store.py lines 8-20): collection is
None until create_collection is called; the chromadb client itself is an
external collaborator and the collection contents are modelled as the list of
stored documents. -/
structure BRFVectorStore where
  collection : Option (List StoredDoc)
  enable_hybrid : Bool
deriving Repr, DecidableEq

/-- Default ids `doc_0`, `doc_1`, ... generated by add_documents
(vector_store.py lines 48-49) when ids is None. -/
def defaultIds (n : Nat) : List String :=
  (List.range n).map (fun i => "doc_" ++ toString i)

/-- BRFVectorStore.add_documents (vector_store.py lines 38-60): raises
ValueError when no collection has been created; otherwise the external
`collection.add` call is modelled as appending the zipped documents (the
subsequent BM25 rebuild touches only the retriever, whose behaviour is
modelled separately on the current collection contents). -/
def addDocuments (store : BRFVectorStore) (texts : List String)
    (embeddings : List (List Rat)) (metadatas : Option (List (List (String × String))))
    (ids : Option (List String)) : Except PyErr BRFVectorStore :=
  match store.collection with
  | none => .error (.valueError "Collection not created. Call create_collection first.")
  | some docs =>
    let ids := ids.getD (defaultIds texts.length)
    let metas := metadatas.getD (texts.map (fun _ => []))
    let newDocs := (ids.zip ((texts.zip embeddings).zip metas)).map
      (fun p => StoredDoc.mk p.1 p.2.1.1 p.2.1.2 p.2.2)
    .ok { store with collection := some (docs ++ newDocs) }

/-- BRFVectorStore.search (vector_store.py lines 62-98): raises ValueError
when no collection has been created; otherwise delegates to the external
collection query (dense path) or to the hybrid retriever — both are
realizations of the collaborator capability `queryFn`, over which the model
is parametric. -/
def storeSearch (queryFn : List StoredDoc → List Rat → Nat → List SearchResult)
    (store : BRFVectorStore) (query_embedding : List Rat) (n_results : Nat) :
    Except PyErr (List SearchResult) :=
  match store.collection with
  | none => .error (.valueError "Collection not created. Call create_collection first.")
  | some docs => .ok (queryFn docs query_embedding n_results)

/-- Min-max normalization of the BM25 candidate scores
(hybrid_retrieval.py lines 131-142): on a nonempty candidate list, each score
maps to (score - min) / range with range = max - min, or 1 when all scores
are equal; higher stays better. -/
def normBM25 : List (String × Rat) → List (String × Rat)
  | [] => []
  | (i0, s0) :: rest =>
    let mx := (rest.map Prod.snd).foldl max s0
    let mn := (rest.map Prod.snd).foldl min s0
    let range := if mx > mn then mx - mn else 1
    ((i0, s0) :: rest).map (fun p => (p.1, (p.2 - mn) / range))

/-- Min-max normalization of the dense distances into similarities
(hybrid_retrieval.py lines 144-159): each distance maps to
1 - (distance - min) / range, so higher means more similar. -/
def normVec (ids : List String) : List Rat → List (String × Rat)
  | [] => []
  | d0 :: rest =>
    let mx := rest.foldl max d0
    let mn := rest.foldl min d0
    let range := if mx > mn then mx - mn else 1
    (ids.zip (d0 :: rest)).map (fun p => (p.1, 1 - (p.2 - mn) / range))

/-- Python `dict.get(doc_id, 0.0)` over an association list
(hybrid_retrieval.py lines 166-167). -/
def lookup0 (l : List (String × Rat)) (i : String) : Rat :=
  (l.lookup i).getD 0

/-- The union `set(bm25_dict.keys()) | set(vector_dict.keys())`
(hybrid_retrieval.py line 162), modelled deterministically in insertion
order: the sparse ids first, then the dense-only ids (Python set iteration
order is unspecified; the model fixes this order). -/
def unionIds (bmN vecN : List (String × Rat)) : List String :=
  (bmN.map Prod.fst ++ (vecN.map Prod.fst).filter
    (fun i => ¬ (bmN.map Prod.fst).contains i)).dedup

/-- The combined scores `alpha * vector_score + (1 - alpha) * bm25_score` per
union id (hybrid_retrieval.py lines 161-171), with a missing candidate
contributing 0 from its method. -/
def fuseScores (bmN vecN : List (String × Rat)) (alpha : Rat) : List (String × Rat) :=
  (unionIds bmN vecN).map
    (fun i => (i, alpha * lookup0 vecN i + (1 - alpha) * lookup0 bmN i))

/-- One step of a stable insertion sort by combined score descending: a pair
goes after every already-sorted pair with a strictly greater score and before
the equal-scored ones, which all came later in the encounter order — as
Python's stable `sorted(..., reverse=True)` keeps equal keys in encounter
order. -/
def insertByScoreDesc (p : String × Rat) : List (String × Rat) → List (String × Rat)
  | [] => [p]
  | q :: qs =>
    if q.2 > p.2 then q :: insertByScoreDesc p qs
    else p :: q :: qs

/-- Stable descending sort of (id, score) pairs, modelling
`sorted(combined_scores.items(), key=lambda x: x[1], reverse=True)`
(hybrid_retrieval.py lines 174-178). -/
def sortByScoreDesc : List (String × Rat) → List (String × Rat)
  | [] => []
  | p :: ps => insertByScoreDesc p (sortByScoreDesc ps)

/-- HybridRetriever._fuse_results (hybrid_retrieval.py lines 122-204),
reduced to its ranking content: normalize both candidate sets, fuse with
weight alpha, sort descending by combined score and keep the first n_results
(id, combined score) pairs.  The final join against document texts and
metadata and the `1 - score` distance conversion are presentation steps that
do not alter the ranking. -/
def fuse_results (bm25_scores : List (String × Rat)) (vecIds : List String)
    (vecDists : List Rat) (alpha : Rat) (n_results : Nat) : List (String × Rat) :=
  (sortByScoreDesc (fuseScores (normBM25 bm25_scores) (normVec vecIds vecDists) alpha)).take n_results

/-- The ranked id list of a fusion run. -/
def fusedRanking (bm25_scores : List (String × Rat)) (vecIds : List String)
    (vecDists : List Rat) (alpha : Rat) (n_results : Nat) : List String :=
  (fuse_results bm25_scores vecIds vecDists alpha n_results).map Prod.fst

/-- Scenario A of the spec: operating_result = -600000 and solvency_ratio = 4,
all other fields null. -/
def scenarioA : BRFMetrics :=
  { brf_name := "Scenario A", operating_result := some (-600000),
    solvency_ratio := some 4 }

/-- Scenario D of the spec: liquid_assets = 1000000 and num_apartments = 50,
cash_flow null. -/
def scenarioD : BRFMetrics :=
  { brf_name := "Scenario D", liquid_assets := some 1000000,
    num_apartments := some 50 }

/-- A metrics record with positive debt and strictly negative equity. -/
def negativeEquityMetrics : BRFMetrics :=
  { brf_name := "Negative equity", total_debt := some 100000,
    equity := some (-100000) }

/-- Test case 1 ("Healthy BRF Test") of the repository's own
examples/test_red_flags.py, lines 17-32. -/
def healthyTestMetrics : BRFMetrics :=
  { brf_name := "Healthy BRF Test", annual_result := some 500000,
    operating_result := some 300000, interest_costs := some (-200000),
    cash_flow := some 150000, liquid_assets := some 2000000,
    monthly_fee_per_sqm := some 45, total_debt := some 10000000,
    equity := some 8000000, solvency_ratio := some 44,
    maintenance_reserves := some 3000000, num_apartments := some 50,
    building_year := some 2005, total_area := some 3500 }

/-- Concrete input for the witness of the amended claim C4. -/
def witnessMetricsC4 : BRFMetrics :=
  { brf_name := "Witness", total_debt := some 300000, equity := some 200000 }

/-- A metrics record whose only populated optional field is
solvency_ratio = 3. -/
def solvencyThreeMetrics : BRFMetrics :=
  { brf_name := "Solvency 3", solvency_ratio := some 3 }

section Lemmas

@[simp]
lemma ok_bind {α β : Type} (a : α) (f : α → Except PyErr β) :
    (Except.ok a >>= f) = f a := rfl

@[simp]
lemma error_bind {α β : Type} (e : PyErr) (f : α → Except PyErr β) :
    ((Except.error e : Except PyErr α) >>= f) = Except.error e := rfl

@[simp]
lemma pure_eq_ok {α : Type} (a : α) : (pure a : Except PyErr α) = .ok a := rfl

lemma pydiv_ok (a b : Rat) (hb : b ≠ 0) : pydiv a b = .ok (a / b) := by
  simp [pydiv, hb]

lemma length_ite1 {α : Type} (c1 : Prop) [Decidable c1] (a : α) :
    (if c1 then [a] else []).length ≤ 1 := by
  split <;> simp

lemma length_ite2 {α : Type} (c1 c2 : Prop) [Decidable c1] [Decidable c2] (a b : α) :
    (if c1 then [a] else if c2 then [b] else []).length ≤ 1 := by
  split
  · simp
  · exact length_ite1 c2 b

lemma length_ite3 {α : Type} (c1 c2 c3 : Prop) [Decidable c1] [Decidable c2]
    [Decidable c3] (a b c : α) :
    (if c1 then [a] else if c2 then [b] else if c3 then [c] else []).length ≤ 1 := by
  split
  · simp
  · exact length_ite2 c2 c3 b c

lemma interestFlags_ok (m : BRFMetrics) :
    ∃ l, interestFlags m = .ok l ∧ l.length ≤ 1 := by
  cases hic : m.interest_costs with
  | none =>
    cases hn : m.num_apartments <;>
      exact ⟨[], by simp [interestFlags, hic, hn], by simp⟩
  | some ic =>
    cases hn : m.num_apartments with
    | none => exact ⟨[], by simp [interestFlags, hic, hn], by simp⟩
    | some n =>
      by_cases h0 : n = 0
      · exact ⟨[], by simp [interestFlags, hic, hn, h0], by simp⟩
      · have hcast : ((n : Rat)) ≠ 0 := Int.cast_ne_zero.mpr h0
        simp only [interestFlags, hic, hn, if_neg h0, pydiv_ok _ _ hcast, ok_bind,
          pure_eq_ok]
        exact ⟨_, rfl, length_ite3 _ _ _ _ _ _⟩

lemma debtEquityFlags_ok (m : BRFMetrics) :
    ∃ l, debtEquityFlags m = .ok l ∧ l.length ≤ 1 := by
  cases htd : m.total_debt with
  | none =>
    cases he : m.equity <;>
      exact ⟨[], by simp [debtEquityFlags, htd, he], by simp⟩
  | some td =>
    cases he : m.equity with
    | none => exact ⟨[], by simp [debtEquityFlags, htd, he], by simp⟩
    | some e =>
      by_cases h0 : td = 0 ∨ ¬ (0 < e)
      · exact ⟨[], by simp only [debtEquityFlags, htd, he, if_pos h0, pure_eq_ok],
          by simp⟩
      · have he0 : ((e : Rat)) ≠ 0 := by
          rcases not_or.mp h0 with ⟨-, h⟩
          exact ne_of_gt (not_not.mp h)
        simp only [debtEquityFlags, htd, he, if_neg h0, pydiv_ok _ _ he0, ok_bind,
          pure_eq_ok]
        exact ⟨_, rfl, length_ite2 _ _ _ _⟩

lemma liquidAssetsFlags_ok (m : BRFMetrics) :
    ∃ l, liquidAssetsFlags m = .ok l ∧ l.length ≤ 1 := by
  cases hla : m.liquid_assets with
  | none =>
    cases hn : m.num_apartments <;>
      exact ⟨[], by simp [liquidAssetsFlags, hla, hn], by simp⟩
  | some la =>
    cases hn : m.num_apartments with
    | none => exact ⟨[], by simp [liquidAssetsFlags, hla, hn], by simp⟩
    | some n =>
      by_cases h0 : n = 0
      · exact ⟨[], by simp [liquidAssetsFlags, hla, hn, h0], by simp⟩
      · have hcast : ((n : Rat)) ≠ 0 := Int.cast_ne_zero.mpr h0
        simp only [liquidAssetsFlags, hla, hn, if_neg h0, pydiv_ok _ _ hcast, ok_bind,
          pure_eq_ok]
        exact ⟨_, rfl, length_ite2 _ _ _ _⟩

lemma oldBuildingReservesFlags_ok (m : BRFMetrics) :
    ∃ l, oldBuildingReservesFlags m = .ok l ∧ l.length ≤ 1 := by
  cases hy : m.building_year with
  | none => exact ⟨[], by simp [oldBuildingReservesFlags, hy], by simp⟩
  | some y =>
    by_cases hy0 : y = 0
    · exact ⟨[], by simp [oldBuildingReservesFlags, hy, hy0], by simp⟩
    · by_cases hage : (2024 : Int) - y > 60
      · cases hmr : m.maintenance_reserves with
        | none =>
          cases hn : m.num_apartments <;>
            exact ⟨[], by simp [oldBuildingReservesFlags, hy, hy0, hage, hmr, hn], by simp⟩
        | some mr =>
          cases hn : m.num_apartments with
          | none =>
            exact ⟨[], by simp [oldBuildingReservesFlags, hy, hy0, hage, hmr, hn], by simp⟩
          | some n =>
            by_cases h0 : n = 0
            · exact ⟨[], by simp [oldBuildingReservesFlags, hy, hy0, hage, hmr, hn, h0],
                by simp⟩
            · have hcast : ((n : Rat)) ≠ 0 := Int.cast_ne_zero.mpr h0
              simp only [oldBuildingReservesFlags, hy, if_neg hy0, if_pos hage, hmr, hn,
                if_neg h0, pydiv_ok _ _ hcast, ok_bind, pure_eq_ok]
              exact ⟨_, rfl, length_ite1 _ _⟩
      · exact ⟨[], by simp [oldBuildingReservesFlags, hy, hy0, hage], by simp⟩

lemma reservesFlags_ok (m : BRFMetrics) :
    ∃ l, reservesFlags m = .ok l ∧ l.length ≤ 1 := by
  cases hmr : m.maintenance_reserves with
  | none =>
    cases hn : m.num_apartments <;>
      exact ⟨[], by simp [reservesFlags, hmr, hn], by simp⟩
  | some mr =>
    cases hn : m.num_apartments with
    | none => exact ⟨[], by simp [reservesFlags, hmr, hn], by simp⟩
    | some n =>
      by_cases h0 : n = 0
      · exact ⟨[], by simp [reservesFlags, hmr, hn, h0], by simp⟩
      · have hcast : ((n : Rat)) ≠ 0 := Int.cast_ne_zero.mpr h0
        simp only [reservesFlags, hmr, hn, if_neg h0, pydiv_ok _ _ hcast, ok_bind,
          pure_eq_ok]
        exact ⟨_, rfl, length_ite1 _ _⟩

lemma check_debt_risk_ok (m : BRFMetrics) : ∃ l, check_debt_risk m = .ok l := by
  obtain ⟨l1, h1, -⟩ := interestFlags_ok m
  obtain ⟨l2, h2, -⟩ := debtEquityFlags_ok m
  exact ⟨l1 ++ l2, by simp [check_debt_risk, h1, h2]⟩

lemma check_liquidity_ok (m : BRFMetrics) : ∃ l, check_liquidity m = .ok l := by
  obtain ⟨l1, h1, -⟩ := liquidAssetsFlags_ok m
  exact ⟨cashFlowFlags m ++ l1, by simp [check_liquidity, h1]⟩

lemma check_maintenance_ok (m : BRFMetrics) : ∃ l, check_maintenance m = .ok l := by
  obtain ⟨l1, h1, -⟩ := oldBuildingReservesFlags_ok m
  obtain ⟨l2, h2, -⟩ := reservesFlags_ok m
  exact ⟨buildingAgeFlags m ++ l1 ++ l2, by simp [check_maintenance, h1, h2]⟩

end Lemmas

section SortLemmas

lemma mem_insertBySeverity {x f : RedFlag} {L : List RedFlag} :
    x ∈ insertBySeverity f L ↔ x = f ∨ x ∈ L := by
  induction L with
  | nil => simp [insertBySeverity]
  | cons g gs ih =>
    simp only [insertBySeverity]
    split
    · simp only [List.mem_cons, ih]
      tauto
    · simp only [List.mem_cons]

lemma insertBySeverity_pairwise {f : RedFlag} {L : List RedFlag}
    (h : L.Pairwise (fun a b => severity_sort_key a.severity ≤ severity_sort_key b.severity)) :
    (insertBySeverity f L).Pairwise
      (fun a b => severity_sort_key a.severity ≤ severity_sort_key b.severity) := by
  induction L with
  | nil => simp [insertBySeverity]
  | cons g gs ih =>
    rcases List.pairwise_cons.mp h with ⟨hg, hgs⟩
    simp only [insertBySeverity]
    split
    · rename_i hlt
      refine List.pairwise_cons.mpr ⟨?_, ih hgs⟩
      intro x hx
      rcases mem_insertBySeverity.mp hx with rfl | hx
      · exact le_of_lt hlt
      · exact hg x hx
    · rename_i hnlt
      refine List.pairwise_cons.mpr ⟨?_, h⟩
      intro x hx
      rcases List.mem_cons.mp hx with rfl | hx
      · exact le_of_not_lt hnlt
      · exact le_trans (le_of_not_lt hnlt) (hg x hx)

lemma sortFlags_pairwise (l : List RedFlag) :
    (sortFlags l).Pairwise
      (fun a b => severity_sort_key a.severity ≤ severity_sort_key b.severity) := by
  induction l with
  | nil => simp [sortFlags]
  | cons f fs ih =>
    simp only [sortFlags]
    exact insertBySeverity_pairwise ih

lemma filter_insertBySeverity (f : RedFlag) (L : List RedFlag) (s : RedFlagSeverity) :
    (insertBySeverity f L).filter (fun g => g.severity == s) =
      if f.severity == s then f :: L.filter (fun g => g.severity == s)
      else L.filter (fun g => g.severity == s) := by
  induction L with
  | nil =>
    simp only [insertBySeverity, List.filter]
    split <;> rename_i hpf <;> simp [hpf]
  | cons g gs ih =>
    simp only [insertBySeverity]
    split
    · rename_i hlt
      by_cases hpf : (f.severity == s) = true
      · have hgf : (g.severity == s) = false := by
          rw [beq_eq_false_iff_ne]
          intro hg
          have h2 : f.severity = s := by simpa using hpf
          rw [hg, h2] at hlt
          exact lt_irrefl _ hlt
        simp [List.filter_cons, hgf, ih, hpf]
      · simp [List.filter_cons, ih, hpf]
    · rename_i hnlt
      by_cases hpf : (f.severity == s) = true <;>
        simp [List.filter_cons, hpf]

lemma sortFlags_filter (l : List RedFlag) (s : RedFlagSeverity) :
    (sortFlags l).filter (fun g => g.severity == s) =
      l.filter (fun g => g.severity == s) := by
  induction l with
  | nil => rfl
  | cons f fs ih =>
    simp only [sortFlags, filter_insertBySeverity, ih, List.filter_cons]

end SortLemmas

section AnalyzerOkLemmas

lemma liquidityAssetsAdj_ok (m : BRFMetrics) : ∃ v, liquidityAssetsAdj m = .ok v := by
  cases hla : m.liquid_assets with
  | none => cases hn : m.num_apartments <;> exact ⟨0, by simp [liquidityAssetsAdj, hla, hn]⟩
  | some la =>
    cases hn : m.num_apartments with
    | none => exact ⟨0, by simp [liquidityAssetsAdj, hla, hn]⟩
    | some n =>
      by_cases h0 : n = 0
      · exact ⟨0, by simp [liquidityAssetsAdj, hla, hn, h0]⟩
      · have hcast : ((n : Rat)) ≠ 0 := Int.cast_ne_zero.mpr h0
        simp only [liquidityAssetsAdj, hla, hn, if_neg h0, pydiv_ok _ _ hcast, ok_bind,
          pure_eq_ok]
        exact ⟨_, rfl⟩

lemma interestAdj_ok (m : BRFMetrics) : ∃ v, interestAdj m = .ok v := by
  cases hic : m.interest_costs with
  | none => cases hn : m.num_apartments <;> exact ⟨0, by simp [interestAdj, hic, hn]⟩
  | some ic =>
    cases hn : m.num_apartments with
    | none => exact ⟨0, by simp [interestAdj, hic, hn]⟩
    | some n =>
      by_cases h0 : n = 0
      · exact ⟨0, by simp [interestAdj, hic, hn, h0]⟩
      · have hcast : ((n : Rat)) ≠ 0 := Int.cast_ne_zero.mpr h0
        simp only [interestAdj, hic, hn, if_neg h0, pydiv_ok _ _ hcast, ok_bind,
          pure_eq_ok]
        exact ⟨_, rfl⟩

lemma debtEquityAdj_ok (m : BRFMetrics) : ∃ v, debtEquityAdj m = .ok v := by
  cases htd : m.total_debt with
  | none => cases he : m.equity <;> exact ⟨0, by simp [debtEquityAdj, htd, he]⟩
  | some td =>
    cases he : m.equity with
    | none => exact ⟨0, by simp [debtEquityAdj, htd, he]⟩
    | some e =>
      by_cases h0 : td = 0 ∨ e = 0
      · exact ⟨0, by simp only [debtEquityAdj, htd, he, if_pos h0, pure_eq_ok]⟩
      · have he0 : ((e : Rat)) ≠ 0 := (not_or.mp h0).2
        simp only [debtEquityAdj, htd, he, if_neg h0, pydiv_ok _ _ he0, ok_bind,
          pure_eq_ok]
        exact ⟨_, rfl⟩

lemma reservesAdj_ok (m : BRFMetrics) : ∃ v, reservesAdj m = .ok v := by
  cases hmr : m.maintenance_reserves with
  | none => cases hn : m.num_apartments <;> exact ⟨0, by simp [reservesAdj, hmr, hn]⟩
  | some mr =>
    cases hn : m.num_apartments with
    | none => exact ⟨0, by simp [reservesAdj, hmr, hn]⟩
    | some n =>
      by_cases h0 : n = 0
      · exact ⟨0, by simp [reservesAdj, hmr, hn, h0]⟩
      · have hcast : ((n : Rat)) ≠ 0 := Int.cast_ne_zero.mpr h0
        simp only [reservesAdj, hmr, hn, if_neg h0, pydiv_ok _ _ hcast, ok_bind,
          pure_eq_ok]
        exact ⟨_, rfl⟩

end AnalyzerOkLemmas

section FusionLemmas

lemma mem_insertByScoreDesc {x p : String × Rat} {L : List (String × Rat)} :
    x ∈ insertByScoreDesc p L ↔ x = p ∨ x ∈ L := by
  induction L with
  | nil => simp [insertByScoreDesc]
  | cons q qs ih =>
    simp only [insertByScoreDesc]
    split
    · simp only [List.mem_cons, ih]
      tauto
    · simp only [List.mem_cons]

lemma insertByScoreDesc_pairwise {p : String × Rat} {L : List (String × Rat)}
    (h : L.Pairwise (fun a b => b.2 ≤ a.2)) :
    (insertByScoreDesc p L).Pairwise (fun a b => b.2 ≤ a.2) := by
  induction L with
  | nil => simp [insertByScoreDesc]
  | cons q qs ih =>
    rcases List.pairwise_cons.mp h with ⟨hq, hqs⟩
    simp only [insertByScoreDesc]
    split
    · rename_i hgt
      refine List.pairwise_cons.mpr ⟨?_, ih hqs⟩
      intro x hx
      rcases mem_insertByScoreDesc.mp hx with rfl | hx
      · exact le_of_lt hgt
      · exact hq x hx
    · rename_i hngt
      refine List.pairwise_cons.mpr ⟨?_, h⟩
      intro x hx
      rcases List.mem_cons.mp hx with rfl | hx
      · exact le_of_not_lt hngt
      · exact le_trans (hq x hx) (le_of_not_lt hngt)

lemma sortByScoreDesc_pairwise (l : List (String × Rat)) :
    (sortByScoreDesc l).Pairwise (fun a b => b.2 ≤ a.2) := by
  induction l with
  | nil => simp [sortByScoreDesc]
  | cons p ps ih =>
    simp only [sortByScoreDesc]
    exact insertByScoreDesc_pairwise ih

lemma fuseScores_alpha_one (bmN vecN : List (String × Rat)) :
    fuseScores bmN vecN 1 =
      (unionIds bmN vecN).map (fun i => (i, lookup0 vecN i)) := by
  simp only [fuseScores]
  apply List.map_congr_left
  intro i _
  simp

lemma fuseScores_alpha_zero (bmN vecN : List (String × Rat)) :
    fuseScores bmN vecN 0 =
      (unionIds bmN vecN).map (fun i => (i, lookup0 bmN i)) := by
  simp only [fuseScores]
  apply List.map_congr_left
  intro i _
  simp

end FusionLemmas

/-- The operational-issue check short-circuits on the failed attribute lookup
before inspecting any metric value. -/
lemma check_operational_issues_error (m : BRFMetrics) :
    check_operational_issues m = .error (.attributeError "annual_fee_per_sqm") := rfl


/-- Claim C1: for every BRFMetrics record carrying exactly the dataclass
fields, detect_red_flags raises AttributeError for annual_fee_per_sqm —
an attribute the operational-fee check reads but the record type does not
define — before producing any report, regardless of the field values. -/
theorem claim_C1_detect_always_attribute_error (m : BRFMetrics) :
    detect_red_flags m = .error (.attributeError "annual_fee_per_sqm") := by
  obtain ⟨l1, h1⟩ := check_debt_risk_ok m
  obtain ⟨l2, h2⟩ := check_liquidity_ok m
  obtain ⟨l3, h3⟩ := check_maintenance_ok m
  simp [detect_red_flags, h1, h2, h3, check_operational_issues_error]

/-- Claim C2 (code evaluation at the failing input): on scenario A the four
metric checks that run before the operational check produce exactly two
critical flags and no others, and those counts aggregate to the risk label
KRITISK — but detect_red_flags itself raises AttributeError before building
any report, so no report with that (or any) overall_risk_level is produced. -/
theorem claim_C2_scenarioA_evaluation :
    detect_red_flags scenarioA = .error (.attributeError "annual_fee_per_sqm") ∧
    check_debt_risk scenarioA = .ok [] ∧
    check_liquidity scenarioA = .ok [] ∧
    check_maintenance scenarioA = .ok [] ∧
    ((check_financial_stability scenarioA).filter
      (fun f => f.severity == RedFlagSeverity.critical)).length = 2 ∧
    (check_financial_stability scenarioA).length = 2 ∧
    calculate_overall_risk 2 0 0 = "KRITISK" :=
  ⟨rfl, rfl, rfl, rfl, rfl, rfl, rfl⟩

/-- Claim C3 (counterexample): on scenario D — exactly 20000 in liquid assets
per apartment — the liquidity sub-score is not 55: the strict comparison
`assets_per_apt > 20000` fails, so the rule does not contribute +5. -/
theorem claim_C3_counterexample :
    score_liquidity scenarioD ≠ .ok 55 := by
  have hadj : liquidityAssetsAdj scenarioD = .ok (-15) := by
    simp only [liquidityAssetsAdj, scenarioD]
    norm_num [pydiv]
  simp only [score_liquidity, hadj, ok_bind, pure_eq_ok]
  have hcf : cashFlowAdj scenarioD = 0 := rfl
  rw [hcf]
  simp only [ne_eq, Except.ok.injEq]
  decide

/-- Claim C3 (amended): at exactly 20000 liquid assets per apartment the
strict `> 20000` comparison fails and the rule falls through to the else
branch, contributing -15 (not +15, not +5), so the liquidity sub-score is
35. -/
theorem claim_C3_amended_boundary_contributes_minus15 :
    liquidityAssetsAdj scenarioD = .ok (-15) ∧
    score_liquidity scenarioD = .ok 35 := by
  have hadj : liquidityAssetsAdj scenarioD = .ok (-15) := by
    simp only [liquidityAssetsAdj, scenarioD]
    norm_num [pydiv]
  refine ⟨hadj, ?_⟩
  simp only [score_liquidity, hadj, ok_bind, pure_eq_ok]
  have hcf : cashFlowAdj scenarioD = 0 := rfl
  rw [hcf]
  simp only [ne_eq, Except.ok.injEq]
  decide

/-- Claim C4 (counterexample): with total_debt = 100000 and
equity = -100000 the debt-to-equity rule is not skipped — the truthiness
guard passes, the ratio -1 falls in the `< 0.5` branch and contributes +15,
so the debt-management sub-score is 65, not the neutral 50 the claim
requires for negative equity. -/
theorem claim_C4_counterexample :
    debtEquityAdj negativeEquityMetrics = .ok 15 ∧
    score_debt_management negativeEquityMetrics ≠ .ok 50 := by
  have hadj : debtEquityAdj negativeEquityMetrics = .ok 15 := by
    simp only [debtEquityAdj, negativeEquityMetrics]
    norm_num [pydiv]
  refine ⟨hadj, ?_⟩
  have hint : interestAdj negativeEquityMetrics = .ok 0 := rfl
  simp only [score_debt_management, hint, hadj, ok_bind, pure_eq_ok]
  simp only [ne_eq, Except.ok.injEq]
  decide

/-- Claim C4 (amended): the health scorer's debt-to-equity rule is guarded by
Python truthiness of total_debt and equity, not by equity > 0: a null or
zero value in either field skips the rule, but any nonzero equity — negative
included — lets it run, and the adjustment is +15 for ratio < 0.5, +5 for
< 1.0, -10 for < 2.0, else -25. -/
theorem claim_C4_amended_truthiness_guard :
    (∀ m : BRFMetrics, m.equity = none → debtEquityAdj m = .ok 0) ∧
    (∀ m : BRFMetrics, m.equity = some 0 → debtEquityAdj m = .ok 0) ∧
    (∀ m : BRFMetrics, m.total_debt = some 0 → debtEquityAdj m = .ok 0) ∧
    (∀ m : BRFMetrics, ∀ td e : Rat, m.total_debt = some td → m.equity = some e →
      td ≠ 0 → e ≠ 0 →
      debtEquityAdj m = .ok (if td / e < 1/2 then 15 else if td / e < 1 then 5
        else if td / e < 2 then -10 else -25)) := by
  refine ⟨?_, ?_, ?_, ?_⟩
  · intro m he
    cases htd : m.total_debt <;> simp [debtEquityAdj, htd, he]
  · intro m he
    cases htd : m.total_debt <;> simp [debtEquityAdj, htd, he]
  · intro m htd
    cases he : m.equity <;> simp [debtEquityAdj, htd, he]
  · intro m td e htd he htd0 he0
    have hguard : ¬ (td = 0 ∨ e = 0) := not_or.mpr ⟨htd0, he0⟩
    simp only [debtEquityAdj, htd, he, if_neg hguard, pydiv_ok _ _ he0, ok_bind,
      pure_eq_ok]


/-- Witness for the amended claim C4: concrete nonzero inputs with ratio 1.5
land in the `< 2.0` branch with adjustment -10. -/
theorem claim_C4_amended_witness :
    debtEquityAdj witnessMetricsC4 = .ok (-10) := by
  have h := claim_C4_amended_truthiness_guard.2.2.2 witnessMetricsC4
    300000 200000 rfl rfl (by decide) (by decide)
  rw [h]
  norm_num

/-- Claim C5: on a metrics record whose optional fields are all null, every
rule is skipped, all five sub-scores stay at the neutral baseline 50, and the
truncated weighted overall score is exactly 50. -/
theorem claim_C5_all_null_scores_50 (name : String) :
    calculate_health_score { brf_name := name } = .ok ⟨50, 50, 50, 50, 50, 50⟩ := by
  have hfs : score_financial_stability { brf_name := name } = 50 := rfl
  have hce : score_cost_efficiency { brf_name := name } = 50 := rfl
  have hli : score_liquidity { brf_name := name } = .ok 50 := rfl
  have hdm : score_debt_management { brf_name := name } = .ok 50 := rfl
  have hmr : score_maintenance_readiness { brf_name := name } = .ok 50 := rfl
  simp only [calculate_health_score, hfs, hce, hli, hdm, hmr, ok_bind, pure_eq_ok]
  have h50 : ((50 : Int) : Rat) * (25/100) + ((50 : Int) : Rat) * (20/100) +
      ((50 : Int) : Rat) * (20/100) + ((50 : Int) : Rat) * (20/100) +
      ((50 : Int) : Rat) * (15/100) = ((50 : Int) : Rat) := by norm_num
  rw [pyint, h50]
  norm_num

/-- Claim C9: with no collection initialized, add_documents and search both
fail with the configuration error (raised as ValueError in the code) and have
no other effect: no state is returned and no results are produced. -/
theorem claim_C9_uninitialized_collection_fails (eh : Bool)
    (queryFn : List StoredDoc → List Rat → Nat → List SearchResult)
    (texts : List String) (embeddings : List (List Rat))
    (metadatas : Option (List (List (String × String))))
    (ids : Option (List String)) (q : List Rat) (n : Nat) :
    addDocuments ⟨none, eh⟩ texts embeddings metadatas ids =
      .error (.valueError "Collection not created. Call create_collection first.") ∧
    storeSearch queryFn ⟨none, eh⟩ q n =
      .error (.valueError "Collection not created. Call create_collection first.") :=
  ⟨rfl, rfl⟩




/-- Claim C6: every threshold check of the detector emits at most one flag
(the tiers of one check are mutually exclusive if/elif chains, tested
most-severe-first), and solvency_ratio = 3 yields exactly one critical
solvency flag — no high- or medium-severity one. -/
theorem claim_C6_tier_exclusivity :
    (∀ m, (operatingResultFlags m).length ≤ 1) ∧
    (∀ m, (annualResultFlags m).length ≤ 1) ∧
    (∀ m, (solvencyFlags m).length ≤ 1) ∧
    (∀ m, ∃ l, interestFlags m = .ok l ∧ l.length ≤ 1) ∧
    (∀ m, ∃ l, debtEquityFlags m = .ok l ∧ l.length ≤ 1) ∧
    (∀ m, (cashFlowFlags m).length ≤ 1) ∧
    (∀ m, ∃ l, liquidAssetsFlags m = .ok l ∧ l.length ≤ 1) ∧
    (∀ m, (buildingAgeFlags m).length ≤ 1) ∧
    (∀ m, ∃ l, oldBuildingReservesFlags m = .ok l ∧ l.length ≤ 1) ∧
    (∀ m, ∃ l, reservesFlags m = .ok l ∧ l.length ≤ 1) ∧
    (∀ m, check_operational_issues m = .error (.attributeError "annual_fee_per_sqm")) ∧
    solvencyFlags solvencyThreeMetrics =
      [⟨"Kritiskt låg soliditet", .financial_stability, .critical, some 3⟩] := by
  refine ⟨?_, ?_, ?_, interestFlags_ok, debtEquityFlags_ok, ?_, liquidAssetsFlags_ok,
    ?_, oldBuildingReservesFlags_ok, reservesFlags_ok, check_operational_issues_error,
    rfl⟩
  · intro m
    cases h : m.operating_result
    · simp [operatingResultFlags, h]
    · simp only [operatingResultFlags, h]
      exact length_ite2 _ _ _ _
  · intro m
    cases h : m.annual_result
    · simp [annualResultFlags, h]
    · simp only [annualResultFlags, h]
      exact length_ite1 _ _
  · intro m
    cases h : m.solvency_ratio
    · simp [solvencyFlags, h]
    · simp only [solvencyFlags, h]
      exact length_ite3 _ _ _ _ _ _
  · intro m
    cases h : m.cash_flow
    · simp [cashFlowFlags, h]
    · simp only [cashFlowFlags, h]
      exact length_ite2 _ _ _ _
  · intro m
    cases h : m.building_year
    · simp [buildingAgeFlags, h]
    · simp only [buildingAgeFlags, h]
      split
      · simp
      · exact length_ite2 _ _ _ _

/-- Claim C7 (code evaluation plus the sorting facts): detect_red_flags on
the repository's own "Healthy BRF Test" input raises AttributeError and
produces no report at all; the sorting step the report constructor applies is
ordered by severity rank (critical, high, medium, low), is stable within each
severity tier, and in its output no low-severity flag ever precedes a high-
or critical-severity flag. -/
theorem claim_C7_report_sorting :
    detect_red_flags healthyTestMetrics = .error (.attributeError "annual_fee_per_sqm") ∧
    (∀ l : List RedFlag, (sortFlags l).Pairwise
      (fun a b => severity_sort_key a.severity ≤ severity_sort_key b.severity)) ∧
    (∀ l : List RedFlag, ∀ s : RedFlagSeverity,
      (sortFlags l).filter (fun g => g.severity == s) =
        l.filter (fun g => g.severity == s)) ∧
    (∀ l : List RedFlag, (sortFlags l).Pairwise
      (fun a b => ¬ (a.severity = .low ∧
        (b.severity = .high ∨ b.severity = .critical)))) := by
  refine ⟨?_, sortFlags_pairwise, sortFlags_filter, ?_⟩
  · obtain ⟨l1, h1⟩ := check_debt_risk_ok healthyTestMetrics
    obtain ⟨l2, h2⟩ := check_liquidity_ok healthyTestMetrics
    obtain ⟨l3, h3⟩ := check_maintenance_ok healthyTestMetrics
    simp [detect_red_flags, h1, h2, h3, check_operational_issues_error]
  · intro l
    refine (sortFlags_pairwise l).imp ?_
    intro a b hab
    rintro ⟨ha, hb | hb⟩ <;> rw [ha, hb] at hab <;> simp [severity_sort_key] at hab

/-- Claim C10: the ratio rules guard their divisors by truthiness, so the
scorers and the debt-risk check never raise (in particular never divide by
zero), and a zero divisor field — num_apartments = 0, equity = 0,
total_debt = 0 — skips the rule exactly as a null value does. -/
theorem claim_C10_zero_divisor_guards :
    (∀ m : BRFMetrics, ∃ s, score_liquidity m = .ok s) ∧
    (∀ m : BRFMetrics, ∃ s, score_debt_management m = .ok s) ∧
    (∀ m : BRFMetrics, ∃ s, score_maintenance_readiness m = .ok s) ∧
    (∀ m : BRFMetrics, ∃ l, check_debt_risk m = .ok l) ∧
    (∀ m : BRFMetrics, score_liquidity { m with num_apartments := some 0 } =
      score_liquidity { m with num_apartments := none }) ∧
    (∀ m : BRFMetrics, score_debt_management { m with num_apartments := some 0 } =
      score_debt_management { m with num_apartments := none }) ∧
    (∀ m : BRFMetrics, score_maintenance_readiness { m with num_apartments := some 0 } =
      score_maintenance_readiness { m with num_apartments := none }) ∧
    (∀ m : BRFMetrics, check_debt_risk { m with num_apartments := some 0 } =
      check_debt_risk { m with num_apartments := none }) ∧
    (∀ m : BRFMetrics, score_debt_management { m with equity := some 0 } =
      score_debt_management { m with equity := none }) ∧
    (∀ m : BRFMetrics, score_debt_management { m with total_debt := some 0 } =
      score_debt_management { m with total_debt := none }) ∧
    (∀ m : BRFMetrics, check_debt_risk { m with equity := some 0 } =
      check_debt_risk { m with equity := none }) := by
  refine ⟨?_, ?_, ?_, check_debt_risk_ok, ?_, ?_, ?_, ?_, ?_, ?_, ?_⟩
  · intro m
    obtain ⟨v, hv⟩ := liquidityAssetsAdj_ok m
    exact ⟨max 0 (min 100 (50 + cashFlowAdj m + v)), by simp [score_liquidity, hv]⟩
  · intro m
    obtain ⟨v1, h1⟩ := interestAdj_ok m
    obtain ⟨v2, h2⟩ := debtEquityAdj_ok m
    exact ⟨max 0 (min 100 (50 + v1 + v2)), by simp [score_debt_management, h1, h2]⟩
  · intro m
    obtain ⟨v, hv⟩ := reservesAdj_ok m
    exact ⟨max 0 (min 100 (50 + v + buildingAgeAdj m)),
      by simp [score_maintenance_readiness, hv]⟩
  · intro m
    have h1 : liquidityAssetsAdj { m with num_apartments := some 0 } = .ok 0 := by
      cases hla : m.liquid_assets <;> simp [liquidityAssetsAdj, hla]
    have h2 : liquidityAssetsAdj { m with num_apartments := none } = .ok 0 := by
      cases hla : m.liquid_assets <;> simp [liquidityAssetsAdj, hla]
    simp [score_liquidity, h1, h2, cashFlowAdj]
  · intro m
    have h1 : interestAdj { m with num_apartments := some 0 } = .ok 0 := by
      cases hic : m.interest_costs <;> simp [interestAdj, hic]
    have h2 : interestAdj { m with num_apartments := none } = .ok 0 := by
      cases hic : m.interest_costs <;> simp [interestAdj, hic]
    have h3 : debtEquityAdj { m with num_apartments := some 0 } = debtEquityAdj m := rfl
    have h4 : debtEquityAdj { m with num_apartments := none } = debtEquityAdj m := rfl
    obtain ⟨v, hv⟩ := debtEquityAdj_ok m
    simp [score_debt_management, h1, h2, h3, h4, hv]
  · intro m
    have h1 : reservesAdj { m with num_apartments := some 0 } = .ok 0 := by
      cases hmr : m.maintenance_reserves <;> simp [reservesAdj, hmr]
    have h2 : reservesAdj { m with num_apartments := none } = .ok 0 := by
      cases hmr : m.maintenance_reserves <;> simp [reservesAdj, hmr]
    simp [score_maintenance_readiness, h1, h2, buildingAgeAdj]
  · intro m
    have h1 : interestFlags { m with num_apartments := some 0 } = .ok [] := by
      cases hic : m.interest_costs <;> simp [interestFlags, hic]
    have h2 : interestFlags { m with num_apartments := none } = .ok [] := by
      cases hic : m.interest_costs <;> simp [interestFlags, hic]
    have h3 : debtEquityFlags { m with num_apartments := some 0 } = debtEquityFlags m := rfl
    have h4 : debtEquityFlags { m with num_apartments := none } = debtEquityFlags m := rfl
    obtain ⟨l, hl, -⟩ := debtEquityFlags_ok m
    simp [check_debt_risk, h1, h2, h3, h4, hl]
  · intro m
    have h1 : debtEquityAdj { m with equity := some 0 } = .ok 0 := by
      cases htd : m.total_debt <;> simp [debtEquityAdj, htd]
    have h2 : debtEquityAdj { m with equity := none } = .ok 0 := by
      cases htd : m.total_debt <;> simp [debtEquityAdj, htd]
    have h3 : interestAdj { m with equity := some 0 } = interestAdj m := rfl
    have h4 : interestAdj { m with equity := none } = interestAdj m := rfl
    obtain ⟨v, hv⟩ := interestAdj_ok m
    simp [score_debt_management, h1, h2, h3, h4, hv]
  · intro m
    have h1 : debtEquityAdj { m with total_debt := some 0 } = .ok 0 := by
      cases he : m.equity <;> simp [debtEquityAdj, he]
    have h2 : debtEquityAdj { m with total_debt := none } = .ok 0 := by
      cases he : m.equity <;> simp [debtEquityAdj, he]
    have h3 : interestAdj { m with total_debt := some 0 } = interestAdj m := rfl
    have h4 : interestAdj { m with total_debt := none } = interestAdj m := rfl
    obtain ⟨v, hv⟩ := interestAdj_ok m
    simp [score_debt_management, h1, h2, h3, h4, hv]
  · intro m
    have h1 : debtEquityFlags { m with equity := some 0 } = .ok [] := by
      cases htd : m.total_debt <;> simp [debtEquityFlags, htd]
    have h2 : debtEquityFlags { m with equity := none } = .ok [] := by
      cases htd : m.total_debt <;> simp [debtEquityFlags, htd]
    have h3 : interestFlags { m with equity := some 0 } = interestFlags m := rfl
    have h4 : interestFlags { m with equity := none } = interestFlags m := rfl
    obtain ⟨l, hl, -⟩ := interestFlags_ok m
    simp [check_debt_risk, h1, h2, h3, h4, hl]


/-- Claim C8 (counterexample): with sparse candidates [("s", 2)], dense
candidates ids ["a", "b"] at distances [1, 2] (dense-only ranking ["a", "b"]),
denseWeight 1.0 and n_results 2, the fused output ranking is ["a", "s"]: the
sparse-only candidate "s" scores 0, ties with the worst dense candidate "b"
(normalized similarity 0), precedes it in the set-union iteration order and
displaces it under top-2 truncation — so the output, even after discarding
items absent from the dense candidate set, is ["a"], not the dense-only
ranking ["a", "b"]. -/
theorem claim_C8_counterexample :
    fusedRanking [("s", 2)] ["a", "b"] [1, 2] 1 2 = ["a", "s"] ∧
    (fusedRanking [("s", 2)] ["a", "b"] [1, 2] 1 2).filter
      (fun i => (["a", "b"] : List String).contains i) ≠ ["a", "b"] := by
  have h1 : normBM25 [("s", (2 : Rat))] = [("s", (0 : Rat))] := by
    norm_num [normBM25]
  have h2 : normVec ["a", "b"] [(1 : Rat), 2] = [("a", (1 : Rat)), ("b", 0)] := by
    norm_num [normVec]
  have h3 : fuseScores [("s", (0 : Rat))] [("a", (1 : Rat)), ("b", 0)] 1 =
      [("s", (0 : Rat)), ("a", 1), ("b", 0)] := by
    rw [fuseScores_alpha_one]
    decide
  have h4 : fusedRanking [("s", 2)] ["a", "b"] [1, 2] 1 2 = ["a", "s"] := by
    unfold fusedRanking fuse_results
    rw [h1, h2, h3]
    decide
  refine ⟨h4, ?_⟩
  rw [h4]
  decide

/-- Claim C8 (amended): at the boundary weights the fusion degenerates to one
method's normalized scores — with denseWeight 1.0 each union candidate's
combined score is exactly its min-max-normalized dense similarity (default 0
when absent from the dense set), and with denseWeight 0.0 exactly its
normalized sparse score (default 0 when absent) — and the output is the
stable descending sort of the union under those scores, truncated to
n_results, hence ordered by descending dense (resp. sparse) normalized score.
Exact equality with the single-method rankings fails in general because a
candidate absent from one method ties at score 0 with that method's worst
candidate (see the counterexample). -/
theorem claim_C8_amended_boundary_weights :
    (∀ (bm : List (String × Rat)) (vecIds : List String) (vecDists : List Rat)
      (n : Nat),
      fuse_results bm vecIds vecDists 1 n =
        (sortByScoreDesc ((unionIds (normBM25 bm) (normVec vecIds vecDists)).map
          (fun i => (i, lookup0 (normVec vecIds vecDists) i)))).take n) ∧
    (∀ (bm : List (String × Rat)) (vecIds : List String) (vecDists : List Rat)
      (n : Nat),
      fuse_results bm vecIds vecDists 0 n =
        (sortByScoreDesc ((unionIds (normBM25 bm) (normVec vecIds vecDists)).map
          (fun i => (i, lookup0 (normBM25 bm) i)))).take n) ∧
    (∀ (bm : List (String × Rat)) (vecIds : List String) (vecDists : List Rat)
      (alpha : Rat) (n : Nat),
      (fuse_results bm vecIds vecDists alpha n).Pairwise
        (fun p q => q.2 ≤ p.2)) := by
  refine ⟨?_, ?_, ?_⟩
  · intro bm vecIds vecDists n
    unfold fuse_results
    rw [fuseScores_alpha_one]
  · intro bm vecIds vecDists n
    unfold fuse_results
    rw [fuseScores_alpha_zero]
  · intro bm vecIds vecDists alpha n
    exact (sortByScoreDesc_pairwise _).sublist (List.take_sublist _ _)

end BRFHelper
